import Mathlib

/-!
Verification of the GiveAura payment server (a Node/Express service, three
source variants) against its natural-language specification.

The development shallowly embeds the request handlers that the claims are
about:

* the POST /api/payment/confirm handler of the variant that performs the
  Firestore transaction (src/unnamed/part_001, called the transactional
  variant below, embedded as confirmPayment);
* the POST /api/payment/confirm handler of src/server.js (second document of
  that file, embedded as confirmPaymentServerJs), which writes a Donation to
  a top-level donations collection and maintains no campaign aggregate;
* the POST /api/payment/create-order handlers of src/unnamed/part_000
  (createOrder) and of src/server.js, first document (createOrderServerJs);
* the POST /api/payment/verify-signature handler of src/unnamed/part_000
  (verifySignature).

JavaScript values that matter to the handlers (truthiness, the Number
coercions actually performed, NaN and the infinities) are modelled by JNum
and Option-valued request fields.  The Node crypto library's HMAC-SHA256 is
an external collaborator: it is modelled as an abstract function
hmac : key → message → hex digest, with the fact (observable in Node) that
crypto.createHmac with an undefined key throws a TypeError, which the
handlers' try/catch turns into a 500 response.  Firestore is modelled as
association lists of documents; a Firestore transaction commits all of its
buffered writes or none, so the transaction body becomes a single state
transition.
-/

namespace GiveAura

/-- Model of a JavaScript number as it occurs in request bodies and Firestore
documents: a finite integer value, NaN, or a signed infinity.  (All amounts
relevant to the claims are integral, so finite values are carried as Int.) -/
inductive JNum where
  | fin (x : Int)
  | nan
  | inf
  | ninf
deriving DecidableEq, Repr

/-- JavaScript truthiness of a number: 0 and NaN are falsy, everything else
(including the infinities) is truthy. -/
def JNum.truthy : JNum → Bool
  | .fin x => x != 0
  | .nan => false
  | .inf => true
  | .ninf => true

/-- The JavaScript comparison x <= 0: false on NaN and on Infinity, true on
-Infinity. -/
def JNum.le0 : JNum → Bool
  | .fin x => decide (x ≤ 0)
  | .nan => false
  | .inf => false
  | .ninf => true

/-- The JavaScript predicate Number.isNaN. -/
def JNum.isNaNb : JNum → Bool
  | .nan => true
  | _ => false

/-- JavaScript addition on numbers: NaN is absorbing, Infinity + -Infinity is
NaN, otherwise an infinity dominates. -/
def JNum.add : JNum → JNum → JNum
  | .nan, _ => .nan
  | _, .nan => .nan
  | .inf, .ninf => .nan
  | .ninf, .inf => .nan
  | .inf, _ => .inf
  | _, .inf => .inf
  | .ninf, _ => .ninf
  | _, .ninf => .ninf
  | .fin a, .fin b => .fin (a + b)

/-- The expression Math.round(Number(amount) * 100) as the handlers compute it
(Math.round is the identity on our integral finite values, NaN and the
infinities are fixed points of both operations). -/
def JNum.times100 : JNum → JNum
  | .fin x => .fin (100 * x)
  | v => v

/-- Truthiness of an optional string body field: absent and the empty string
are falsy. -/
def truthyS : Option String → Bool
  | some s => s != ""
  | none => false

/-- Truthiness of an optional numeric body field. -/
def truthyN : Option JNum → Bool
  | some x => x.truthy
  | none => false

/-- Value of an optional string field where the code uses it directly (after a
truthiness guard it is always a nonempty string). -/
def getS (s : Option String) : String :=
  s.getD ""

/-- The coercion Number(amount) on an optional numeric field
(Number(undefined) is NaN). -/
def getN (a : Option JNum) : JNum :=
  a.getD JNum.nan

/-- Firestore document lookup in an association-list collection: the first
binding of the key, if any. -/
def getDoc {κ α : Type} [DecidableEq κ] : List (κ × α) → κ → Option α
  | [], _ => none
  | e :: rest, k => if e.1 = k then some e.2 else getDoc rest k

/-- Firestore document upsert (the set operation): replace the first binding
of the key, or append a fresh binding. -/
def setDoc {κ α : Type} [DecidableEq κ] : List (κ × α) → κ → α → List (κ × α)
  | [], k, v => [(k, v)]
  | e :: rest, k, v => if e.1 = k then (k, v) :: rest else e :: setDoc rest k v

/-- Semantics of crypto.createHmac("sha256", secret).update(msg).digest("hex").
The digest computation is the crypto library's, abstracted as hmac; calling
createHmac with an undefined key (RAZORPAY_KEY_SECRET not configured) throws a
TypeError, modelled as the error case. -/
def hmacSha256Hex (hmac : String → String → String) (secret : Option String)
    (msg : String) : Except String String :=
  match secret with
  | none => Except.error "key argument must be of type string"
  | some k => Except.ok (hmac k msg)

/-- Body of a POST /api/payment/confirm request:
paymentId, orderId, signature, campaignId, amount, each possibly absent. -/
structure ConfirmReq where
  paymentId : Option String
  orderId : Option String
  signature : Option String
  campaignId : Option String
  amount : Option JNum
deriving DecidableEq, Repr

/-- Persisted Donation document as written by the confirm handlers.  The
createdAt field (a server-assigned commit timestamp) and updatedAt are not
modelled; no claim mentions them. -/
structure DonationDoc where
  donationId : String
  campaignId : Option String
  amount : JNum
  paymentId : String
  orderId : String
  source : String
deriving DecidableEq, Repr

/-- Persisted Campaign document; only the fundsRaised field is read or
written by the embedded code. -/
structure CampaignDoc where
  fundsRaised : Option JNum
deriving DecidableEq, Repr

/-- Firestore state as laid out by the transactional variant (part_001):
a campaigns collection, and per-campaign donations subcollections keyed by
the pair (campaign id, donation document id). -/
structure StoreP1 where
  campaigns : List (String × CampaignDoc)
  donations : List ((String × String) × DonationDoc)
deriving DecidableEq, Repr

/-- Firestore state as touched by the src/server.js confirm variant: a
top-level donations collection.  The campaigns collection also exists in the
database; this variant's code never reads or writes it. -/
structure StoreSrv where
  donations : List (String × DonationDoc)
  campaigns : List (String × CampaignDoc)
deriving DecidableEq, Repr

/-- Response of the confirm handlers (the JSON body plus the HTTP status). -/
structure ConfirmResp where
  status : Nat
  success : Bool
  donationId : Option String := none
  message : Option String := none
  warning : Option String := none
deriving DecidableEq, Repr

/-- The read Number(snap.data().fundsRaised || 0): a falsy or absent stored
value is read as 0. -/
def readFundsRaised (v : Option JNum) : JNum :=
  match v with
  | some x => if x.truthy then x else JNum.fin 0
  | none => JNum.fin 0

/-- The POST /api/payment/confirm handler of the transactional variant
(src/unnamed/part_001, lines 163-222).  Steps, in source order: reject with
400 if any of the five body fields is falsy; compute the expected HMAC hex
digest of orderId|paymentId (a missing secret makes createHmac throw, caught
as 500); reject with 401 on mismatch; otherwise run a Firestore transaction
that throws (caught as 500, no writes) if the campaign does not exist and
otherwise sets the Donation document don_(Date.now()) in the campaign's
donations subcollection and updates the campaign's fundsRaised by
Number(amount) — atomically, per the transaction semantics.  The parameter t
is the value of Date.now() for this request. -/
def confirmPayment (hmac : String → String → String) (secret : Option String)
    (t : Nat) (st : StoreP1) (req : ConfirmReq) : ConfirmResp × StoreP1 :=
  if !truthyS req.paymentId || !truthyS req.orderId || !truthyS req.signature
      || !truthyS req.campaignId || !truthyN req.amount then
    ({ status := 400, success := false, message := some "Missing fields" }, st)
  else
    match hmacSha256Hex hmac secret (getS req.orderId ++ "|" ++ getS req.paymentId) with
    | Except.error _ =>
      ({ status := 500, success := false, message := some "Payment confirmation failed" }, st)
    | Except.ok expected =>
      if expected ≠ getS req.signature then
        ({ status := 401, success := false, message := some "Invalid signature" }, st)
      else
        let cid := getS req.campaignId
        let donationId := "don_" ++ toString t
        match getDoc st.campaigns cid with
        | none =>
          ({ status := 500, success := false, message := some "Payment confirmation failed" }, st)
        | some camp =>
          let raised := readFundsRaised camp.fundsRaised
          let amt := getN req.amount
          let don : DonationDoc :=
            { donationId := donationId, campaignId := some cid, amount := amt,
              paymentId := getS req.paymentId, orderId := getS req.orderId,
              source := "render-confirm" }
          ({ status := 200, success := true, donationId := some donationId },
           { campaigns := setDoc st.campaigns cid { fundsRaised := some (raised.add amt) },
             donations := setDoc st.donations (cid, donationId) don })

/-- The POST /api/payment/confirm handler of src/server.js (second document,
lines 441-499).  It requires only paymentId, orderId, signature and amount to
be truthy (campaignId is not checked), verifies the same HMAC, returns a mock
success without touching the store when Firestore is not enabled, and
otherwise writes a single Donation document don_(Date.now()) to the top-level
donations collection — it updates no campaign aggregate. -/
def confirmPaymentServerJs (hmac : String → String → String) (secret : Option String)
    (firestoreEnabled : Bool) (t : Nat) (st : StoreSrv) (req : ConfirmReq) :
    ConfirmResp × StoreSrv :=
  if !truthyS req.paymentId || !truthyS req.orderId || !truthyS req.signature
      || !truthyN req.amount then
    ({ status := 400, success := false, message := some "Missing fields" }, st)
  else
    match hmacSha256Hex hmac secret (getS req.orderId ++ "|" ++ getS req.paymentId) with
    | Except.error _ =>
      ({ status := 500, success := false, message := some "Payment confirmation failed" }, st)
    | Except.ok expected =>
      if expected ≠ getS req.signature then
        ({ status := 401, success := false, message := some "Invalid signature" }, st)
      else if !firestoreEnabled then
        ({ status := 200, success := true, donationId := some ("don_mock_" ++ toString t),
           warning := some "Firestore disabled" }, st)
      else
        let donationId := "don_" ++ toString t
        let don : DonationDoc :=
          { donationId := donationId,
            campaignId := if truthyS req.campaignId then req.campaignId else none,
            amount := getN req.amount,
            paymentId := getS req.paymentId, orderId := getS req.orderId,
            source := "render-confirm" }
        ({ status := 200, success := true, donationId := some donationId },
         { st with donations := setDoc st.donations donationId don })

/-- Body of a POST /api/payment/verify-signature request. -/
structure VerifyReq where
  paymentId : Option String
  orderId : Option String
  signature : Option String
deriving DecidableEq, Repr

/-- Response of the verify-signature handler. -/
structure VerifyResp where
  status : Nat
  valid : Bool
  message : Option String := none
deriving DecidableEq, Repr

/-- The POST /api/payment/verify-signature handler of src/unnamed/part_000
(lines 286-307): 400 with valid false when a field is falsy; 500 with valid
false when createHmac throws (missing secret); otherwise valid is the
equality of the expected digest with the claimed signature.  The handler
touches no durable state. -/
def verifySignature (hmac : String → String → String) (secret : Option String)
    (req : VerifyReq) : VerifyResp :=
  if !truthyS req.paymentId || !truthyS req.orderId || !truthyS req.signature then
    { status := 400, valid := false, message := some "Missing fields" }
  else
    match hmacSha256Hex hmac secret (getS req.orderId ++ "|" ++ getS req.paymentId) with
    | Except.error _ => { status := 500, valid := false }
    | Except.ok expected =>
      { status := 200, valid := expected == getS req.signature }

/-- Body of a POST /api/payment/create-order request.  A purpose of none
models an absent field, which the destructuring default turns into
"donation". -/
structure CreateOrderReq where
  amount : Option JNum
  campaignId : Option String := none
  purpose : Option String := none
deriving DecidableEq, Repr

/-- Response of the create-order handlers. -/
structure CreateOrderResp where
  status : Nat
  success : Bool
  orderId : Option String := none
  amount : Option JNum := none
  currency : Option String := none
  message : Option String := none
  mock : Bool := false
deriving DecidableEq, Repr

/-- The allowed purposes list of src/unnamed/part_000. -/
def ALLOWED_PURPOSES : List String := ["donation", "event"]

/-- The POST /api/payment/create-order handler of src/unnamed/part_000
(lines 145-268): 400 if amount is falsy or Number(amount) <= 0; 400 if the
purpose (defaulted to "donation") is not in ALLOWED_PURPOSES; 400 if the
purpose is "donation" and campaignId is falsy; otherwise an order is created.
The gateway is external, so the embedded success response is the mock-mode
one (the live branch submits the same rounded amount to Razorpay and echoes
the gateway's order back); in both branches the same validation has already
passed and the same amount Math.round(Number(amount) * 100) is used. -/
def createOrder (t : Nat) (req : CreateOrderReq) : CreateOrderResp :=
  let purpose := req.purpose.getD "donation"
  if !truthyN req.amount || (getN req.amount).le0 then
    { status := 400, success := false, message := some "Invalid amount" }
  else if !(ALLOWED_PURPOSES.contains purpose) then
    { status := 400, success := false, message := some "Invalid payment purpose" }
  else if purpose == "donation" && !truthyS req.campaignId then
    { status := 400, success := false, message := some "campaignId is required for donations" }
  else
    { status := 200, success := true, orderId := some ("order_mock_" ++ toString t),
      amount := some (getN req.amount).times100, currency := some "INR", mock := true }

/-- The POST /api/payment/create-order handler of src/server.js (first
document, lines 96-184): 400 if amount is undefined or null, Number(amount)
is <= 0, or Number(amount) is NaN; otherwise an order is created.  No purpose
or campaignId validation is performed by this variant. -/
def createOrderServerJs (t : Nat) (req : CreateOrderReq) : CreateOrderResp :=
  if req.amount.isNone || (getN req.amount).le0 || (getN req.amount).isNaNb then
    { status := 400, success := false,
      message := some "Invalid amount (must be a positive number)" }
  else
    { status := 200, success := true, orderId := some ("order_mock_" ++ toString t),
      amount := some (getN req.amount).times100, currency := some "INR", mock := true }

/-- Sum of the amounts of a list of donation documents, by JavaScript
addition. -/
def sumAmounts (l : List ((String × String) × DonationDoc)) : JNum :=
  (l.map fun e => e.2.amount).foldr JNum.add (JNum.fin 0)

/-- Sum of the amounts of the donations persisted under campaign cid in the
transactional variant's store. -/
def donationsSum (st : StoreP1) (cid : String) : JNum :=
  sumAmounts (st.donations.filter fun e => e.1.1 == cid)

/-- The aggregate invariant of the specification, over the transactional
variant's store: every campaign's stored running total, as the code reads it,
equals the sum of the amounts of the donations persisted under that
campaign. -/
def campaignsConsistent (st : StoreP1) : Prop :=
  ∀ cid camp, getDoc st.campaigns cid = some camp →
    readFundsRaised camp.fundsRaised = donationsSum st cid

/-! Helper lemmas about the JavaScript number model. -/

theorem JNum.add_fin_zero (a : JNum) : a.add (JNum.fin 0) = a := by
  cases a <;> simp [JNum.add]

theorem JNum.fin_zero_add (a : JNum) : (JNum.fin 0).add a = a := by
  cases a <;> simp [JNum.add]

theorem JNum.add_assoc (a b c : JNum) : (a.add b).add c = a.add (b.add c) := by
  cases a <;> cases b <;> cases c <;> simp [JNum.add, Int.add_assoc]

theorem readFundsRaised_ne_nan (v : Option JNum) : readFundsRaised v ≠ JNum.nan := by
  rcases v with _ | x
  · simp [readFundsRaised]
  · cases x with
    | fin y => by_cases hy : y = 0 <;> simp [readFundsRaised, JNum.truthy, hy]
    | nan => simp [readFundsRaised, JNum.truthy]
    | inf => simp [readFundsRaised, JNum.truthy]
    | ninf => simp [readFundsRaised, JNum.truthy]

theorem JNum.add_fin_ne_nan {a : JNum} (h : a ≠ JNum.nan) (x : Int) :
    a.add (JNum.fin x) ≠ JNum.nan := by
  cases a <;> simp_all [JNum.add]

theorem readFundsRaised_some_of_ne_nan {x : JNum} (h : x ≠ JNum.nan) :
    readFundsRaised (some x) = x := by
  cases x <;> simp_all [readFundsRaised, JNum.truthy]

/-! Helper lemmas about the association-list document store. -/

theorem getDoc_setDoc_self {κ α : Type} [DecidableEq κ] (l : List (κ × α)) (k : κ) (v : α) :
    getDoc (setDoc l k v) k = some v := by
  induction l with
  | nil => simp [getDoc, setDoc]
  | cons e rest ih =>
    by_cases he : e.1 = k
    · simp [getDoc, setDoc, he]
    · simp [getDoc, setDoc, he, ih]

theorem getDoc_setDoc_ne {κ α : Type} [DecidableEq κ] (l : List (κ × α)) {k k2 : κ}
    (v : α) (h : k2 ≠ k) : getDoc (setDoc l k v) k2 = getDoc l k2 := by
  induction l with
  | nil => simp [getDoc, setDoc, Ne.symm h]
  | cons e rest ih =>
    by_cases he : e.1 = k
    · simp [getDoc, setDoc, he, Ne.symm h]
    · simp only [setDoc, he, if_false, getDoc]
      by_cases he2 : e.1 = k2 <;> simp [he2, ih]

theorem setDoc_of_getDoc_none {κ α : Type} [DecidableEq κ] {l : List (κ × α)} {k : κ}
    (h : getDoc l k = none) (v : α) : setDoc l k v = l ++ [(k, v)] := by
  induction l with
  | nil => simp [setDoc]
  | cons e rest ih =>
    by_cases he : e.1 = k
    · simp [getDoc, he] at h
    · simp only [getDoc, he, if_false] at h
      simp [setDoc, he, ih h]

theorem foldr_add_init (xs : List JNum) (a : JNum) :
    xs.foldr JNum.add a = (xs.foldr JNum.add (JNum.fin 0)).add a := by
  induction xs with
  | nil => simp [JNum.fin_zero_add]
  | cons x rest ih => simp [List.foldr, ih, JNum.add_assoc]

theorem sumAmounts_append_single (l : List ((String × String) × DonationDoc))
    (e : (String × String) × DonationDoc) :
    sumAmounts (l ++ [e]) = (sumAmounts l).add e.2.amount := by
  simp only [sumAmounts, List.map_append, List.foldr_append, List.map, List.foldr,
    JNum.add_fin_zero]
  exact foldr_add_init _ _

/-- Case analysis of the transactional confirm handler: every run either
returns a failure response and leaves the store untouched, or returns 200
with the generated donationId and commits exactly the two transactional
writes (the Donation insert and the fundsRaised update). -/
theorem confirmPayment_cases (hmac : String → String → String) (secret : Option String)
    (t : Nat) (st : StoreP1) (req : ConfirmReq) :
    ((confirmPayment hmac secret t st req).1.success = false ∧
      (confirmPayment hmac secret t st req).2 = st) ∨
    (∃ k camp,
      secret = some k ∧
      truthyS req.paymentId = true ∧ truthyS req.orderId = true ∧
      truthyS req.signature = true ∧ truthyS req.campaignId = true ∧
      truthyN req.amount = true ∧
      getS req.signature = hmac k (getS req.orderId ++ "|" ++ getS req.paymentId) ∧
      getDoc st.campaigns (getS req.campaignId) = some camp ∧
      confirmPayment hmac secret t st req =
        ({ status := 200, success := true, donationId := some ("don_" ++ toString t) },
         { campaigns := setDoc st.campaigns (getS req.campaignId)
             { fundsRaised := some ((readFundsRaised camp.fundsRaised).add (getN req.amount)) },
           donations := setDoc st.donations (getS req.campaignId, "don_" ++ toString t)
             { donationId := "don_" ++ toString t, campaignId := some (getS req.campaignId),
               amount := getN req.amount, paymentId := getS req.paymentId,
               orderId := getS req.orderId, source := "render-confirm" } })) := by
  unfold confirmPayment
  split
  · exact Or.inl ⟨rfl, rfl⟩
  next hval =>
    have hp : truthyS req.paymentId = true := by
      revert hval; cases h : truthyS req.paymentId <;> simp [h]
    have ho : truthyS req.orderId = true := by
      revert hval; cases h : truthyS req.orderId <;> simp [h]
    have hs : truthyS req.signature = true := by
      revert hval; cases h : truthyS req.signature <;> simp [h]
    have hc : truthyS req.campaignId = true := by
      revert hval; cases h : truthyS req.campaignId <;> simp [h]
    have ha : truthyN req.amount = true := by
      revert hval; cases h : truthyN req.amount <;> simp [h]
    rcases secret with _ | k
    · simp only [hmacSha256Hex]
      exact Or.inl (by simp)
    · simp only [hmacSha256Hex]
      split
      · exact Or.inl (by simp)
      next hsig =>
        rcases hcamp : getDoc st.campaigns (getS req.campaignId) with _ | camp
        · simp only [hcamp]
          exact Or.inl (by simp)
        · simp only [hcamp]
          exact Or.inr ⟨k, camp, rfl, hp, ho, hs, hc, ha, (not_not.mp hsig).symm, rfl, rfl⟩

/-- A truthy optional string is some value, namely the value the handlers
read out of it. -/
theorem truthyS_eq_some {o : Option String} (h : truthyS o = true) : o = some (getS o) := by
  cases o with
  | none => simp [truthyS] at h
  | some s => rfl

/-- A truthy optional number is some value, namely its Number coercion. -/
theorem truthyN_eq_some {o : Option JNum} (h : truthyN o = true) : o = some (getN o) := by
  cases o with
  | none => simp [truthyN] at h
  | some x => rfl

/-! Concrete fixtures used to run the handlers on closed inputs. -/

/-- A concrete stand-in for the external HMAC-SHA256 hex digest function,
used to evaluate the handlers on closed inputs. -/
def hmacFixed : String → String → String := fun k m => "hmac:" ++ k ++ ":" ++ m

/-- The digest the gateway would attach to order ord_1 and payment pay_1
under the fixture digest function and the secret k. -/
def sigOk : String := hmacFixed "k" "ord_1|pay_1"

/-- A well-formed confirm request: payment pay_1 of order ord_1, amount 500,
toward campaign c1, carrying the correct signature. -/
def reqOk : ConfirmReq :=
  { paymentId := some "pay_1", orderId := some "ord_1", signature := some sigOk,
    campaignId := some "c1", amount := some (JNum.fin 500) }

/-- The same request with a negative amount, which is truthy and therefore
passes the confirm handler's validation. -/
def reqNeg : ConfirmReq := { reqOk with amount := some (JNum.fin (-5)) }

/-- The same request without a campaignId. -/
def reqNoCid : ConfirmReq := { reqOk with campaignId := none }

/-- A create-order request with amount Infinity, purpose donation and a
campaignId. -/
def orderReqInf : CreateOrderReq :=
  { amount := some JNum.inf, campaignId := some "c1", purpose := some "donation" }

/-- A create-order request with a valid amount and purpose refund. -/
def orderReqRefund : CreateOrderReq :=
  { amount := some (JNum.fin 100), purpose := some "refund" }

/-- A confirm request with every field absent. -/
def reqEmpty : ConfirmReq :=
  { paymentId := none, orderId := none, signature := none, campaignId := none, amount := none }

/-- A store for the transactional variant holding one campaign c1 with no
funds raised and no donations. -/
def stEx : StoreP1 :=
  { campaigns := [("c1", { fundsRaised := some (JNum.fin 0) })], donations := [] }

/-- The corresponding store for the src/server.js variant. -/
def stExSrv : StoreSrv :=
  { donations := [], campaigns := [("c1", { fundsRaised := some (JNum.fin 0) })] }

/-- C1.  The claim asserts that confirming the same paymentId twice leaves
exactly one Donation record and increments the campaign total exactly once,
the second invocation being a no-op.  The code has no idempotency check:
delivering the same verified payment event (paymentId pay_1, amount 500)
twice, at Date.now() values 1 and 2, reports success both times, persists two
Donation records with paymentId pay_1, adds 500 to the campaign total twice
(0 becomes 1000), and the second invocation does mutate the store. -/
theorem confirm_double_delivery_double_counts :
    let r1 : ConfirmResp × StoreP1 := confirmPayment hmacFixed (some "k") 1 stEx reqOk
    let r2 := confirmPayment hmacFixed (some "k") 2 r1.2 reqOk
    r1.1.success = true ∧ r2.1.success = true ∧
    (r2.2.donations.filter fun e => e.2.paymentId == "pay_1").length = 2 ∧
    getDoc r2.2.campaigns "c1" = some { fundsRaised := some (JNum.fin 1000) } ∧
    r2.2 ≠ r1.2 := by
  decide

/-- C2 (amended).  In the transactional variant the Donation insert and the
fundsRaised increment are a single atomic state transition: a run that does
not report success leaves the store exactly as it was, and a run that reports
success produces the store with both the Donation record inserted and the
campaign total increased by the same Number(amount) — no other outcome
exists.  (The src/server.js variant is refuted separately: it inserts the
record and never increments any campaign total.) -/
theorem confirmPayment_applies_both_or_neither (hmac : String → String → String)
    (secret : Option String) (t : Nat) (st : StoreP1) (req : ConfirmReq) :
    ((confirmPayment hmac secret t st req).1.success = false →
      (confirmPayment hmac secret t st req).2 = st) ∧
    ((confirmPayment hmac secret t st req).1.success = true →
      ∃ cid a camp,
        req.campaignId = some cid ∧ req.amount = some a ∧
        getDoc st.campaigns cid = some camp ∧
        (confirmPayment hmac secret t st req).2 =
          { campaigns := setDoc st.campaigns cid
              { fundsRaised := some ((readFundsRaised camp.fundsRaised).add a) },
            donations := setDoc st.donations (cid, "don_" ++ toString t)
              { donationId := "don_" ++ toString t, campaignId := some cid, amount := a,
                paymentId := getS req.paymentId, orderId := getS req.orderId,
                source := "render-confirm" } }) := by
  rcases confirmPayment_cases hmac secret t st req with ⟨hf, hst⟩ |
    ⟨k, camp, hsec, hp, ho, hs, hc, ha, hsig, hcamp, heq⟩
  · refine ⟨fun _ => hst, fun htrue => ?_⟩
    rw [htrue] at hf
    cases hf
  · constructor
    · intro hfalse
      rw [heq] at hfalse
      cases hfalse
    · intro _
      refine ⟨getS req.campaignId, getN req.amount, camp,
        truthyS_eq_some hc, truthyN_eq_some ha, hcamp, ?_⟩
      rw [heq]

/-- C2 counterexample.  In the src/server.js confirm variant a successful
confirmation persists the Donation record while the campaigns collection is
untouched: the resulting durable state has the record without any aggregate
increment, contradicting the claim for this confirmation path. -/
theorem serverJs_confirm_record_without_increment :
    let r := confirmPaymentServerJs hmacFixed (some "k") true 5 stExSrv reqOk
    r.1.success = true ∧
    (getDoc r.2.donations "don_5").isSome = true ∧
    r.2.campaigns = stExSrv.campaigns ∧
    getDoc r.2.campaigns "c1" = some { fundsRaised := some (JNum.fin 0) } := by
  decide

/-- C2 witness: the both-or-neither theorem applied to a concrete failing run
(an empty request), showing the store untouched. -/
theorem confirmPayment_applies_both_or_neither_witness :
    (confirmPayment hmacFixed (some "k") 3 stEx reqEmpty).2 = stEx :=
  (confirmPayment_applies_both_or_neither hmacFixed (some "k") 3 stEx reqEmpty).1 (by decide)

/-- C9 (amended).  Two successful confirmations whose generated donationIds
differ — that is, whose Date.now() values have distinct decimal
representations — persist two distinct records, neither overwriting the
other.  (Confirmations in the same millisecond generate the same donationId
and the second overwrites the first; see the counterexample.) -/
theorem distinct_donationIds_no_overwrite (hmac : String → String → String)
    (secret : Option String) (t1 t2 : Nat) (st : StoreP1) (req1 req2 : ConfirmReq)
    (h1 : (confirmPayment hmac secret t1 st req1).1.success = true)
    (h2 : (confirmPayment hmac secret t2
        (confirmPayment hmac secret t1 st req1).2 req2).1.success = true)
    (hne : ("don_" ++ toString t1 : String) ≠ "don_" ++ toString t2) :
    (getDoc (confirmPayment hmac secret t2
        (confirmPayment hmac secret t1 st req1).2 req2).2.donations
      (getS req1.campaignId, "don_" ++ toString t1)).isSome = true ∧
    (getDoc (confirmPayment hmac secret t2
        (confirmPayment hmac secret t1 st req1).2 req2).2.donations
      (getS req2.campaignId, "don_" ++ toString t2)).isSome = true := by
  have hkey : ((getS req1.campaignId, "don_" ++ toString t1) : String × String) ≠
      (getS req2.campaignId, "don_" ++ toString t2) :=
    fun hEq => hne (congrArg Prod.snd hEq)
  rcases confirmPayment_cases hmac secret t2
      (confirmPayment hmac secret t1 st req1).2 req2 with ⟨hf2, _⟩ |
    ⟨k2, camp2, _, _, _, _, _, _, _, _, heq2⟩
  · rw [h2] at hf2
    cases hf2
  · rcases confirmPayment_cases hmac secret t1 st req1 with ⟨hf1, _⟩ |
      ⟨k1, camp1, _, _, _, _, _, _, _, _, heq1⟩
    · rw [h1] at hf1
      cases hf1
    · rw [heq2]
      constructor
      · show (getDoc (setDoc (confirmPayment hmac secret t1 st req1).2.donations
            (getS req2.campaignId, "don_" ++ toString t2) _)
            (getS req1.campaignId, "don_" ++ toString t1)).isSome = true
        rw [getDoc_setDoc_ne _ _ hkey, heq1]
        show (getDoc (setDoc st.donations (getS req1.campaignId, "don_" ++ toString t1) _)
            (getS req1.campaignId, "don_" ++ toString t1)).isSome = true
        rw [getDoc_setDoc_self]
        rfl
      · show (getDoc (setDoc (confirmPayment hmac secret t1 st req1).2.donations
            (getS req2.campaignId, "don_" ++ toString t2) _)
            (getS req2.campaignId, "don_" ++ toString t2)).isSome = true
        rw [getDoc_setDoc_self]
        rfl

/-- C9 witness: the no-overwrite theorem applied to two concrete successful
confirmations at Date.now() values 1 and 2. -/
theorem distinct_donationIds_no_overwrite_witness :
    (getDoc (confirmPayment hmacFixed (some "k") 2
        (confirmPayment hmacFixed (some "k") 1 stEx reqOk).2 reqOk).2.donations
      (getS reqOk.campaignId, "don_" ++ toString 1)).isSome = true ∧
    (getDoc (confirmPayment hmacFixed (some "k") 2
        (confirmPayment hmacFixed (some "k") 1 stEx reqOk).2 reqOk).2.donations
      (getS reqOk.campaignId, "don_" ++ toString 2)).isSome = true :=
  distinct_donationIds_no_overwrite hmacFixed (some "k") 1 2 stEx reqOk reqOk
    (by decide) (by decide) (by decide)

/-- C9 counterexample.  Two distinct confirmation operations in the same
millisecond (Date.now() = 7 twice) each report success and each persist a
record, but both generate the donationId don_7: the second set overwrites the
first, leaving a single Donation document — refuting the claimed uniqueness
of generated donationIds. -/
theorem donationId_collision_overwrites :
    let r1 := confirmPayment hmacFixed (some "k") 7 stEx reqOk
    let r2 := confirmPayment hmacFixed (some "k") 7 r1.2 reqOk
    r1.1.success = true ∧ r2.1.success = true ∧
    r1.1.donationId = some "don_7" ∧ r2.1.donationId = some "don_7" ∧
    r2.2.donations.length = 1 := by
  decide

/-- C3.  For every orderId, paymentId and claimed signature (all present) and
a configured secret, the verify-signature handler reports valid exactly when
the claimed signature equals the hex digest that the crypto library's
HMAC-SHA256 assigns to the message orderId|paymentId under the secret; in
particular the correctly computed signature verifies and any differing
signature does not. -/
theorem verifySignature_valid_iff_hmac (hmac : String → String → String) (k : String)
    (req : VerifyReq) (hp : truthyS req.paymentId = true) (ho : truthyS req.orderId = true)
    (hs : truthyS req.signature = true) :
    (verifySignature hmac (some k) req).valid = true ↔
      getS req.signature = hmac k (getS req.orderId ++ "|" ++ getS req.paymentId) := by
  unfold verifySignature hmacSha256Hex
  rw [hp, ho, hs]
  simp only [Bool.not_true, Bool.false_or, Bool.or_self, Bool.false_eq_true, if_false,
    beq_iff_eq]
  exact eq_comm

/-- C3 witness: the correctly computed signature for order ord_1 and payment
pay_1 verifies under the fixture digest function. -/
theorem verifySignature_valid_iff_hmac_witness :
    (verifySignature hmacFixed (some "k")
      { paymentId := some "pay_1", orderId := some "ord_1",
        signature := some sigOk }).valid = true :=
  (verifySignature_valid_iff_hmac hmacFixed "k"
    { paymentId := some "pay_1", orderId := some "ord_1", signature := some sigOk }
    (by decide) (by decide) (by decide)).mpr (by decide)

/-- C6.  With the shared secret not configured, createHmac throws and every
confirmation path fails closed: for every request, both confirm variants
report failure and leave their store untouched, and the verify-signature
handler never reports a valid signature.  The signature check is never
skipped. -/
theorem missing_secret_fails_closed (hmac : String → String → String) (t : Nat)
    (fe : Bool) (st1 : StoreP1) (st2 : StoreSrv) (req : ConfirmReq) (vreq : VerifyReq) :
    (confirmPayment hmac none t st1 req).1.success = false ∧
    (confirmPayment hmac none t st1 req).2 = st1 ∧
    (confirmPaymentServerJs hmac none fe t st2 req).1.success = false ∧
    (confirmPaymentServerJs hmac none fe t st2 req).2 = st2 ∧
    (verifySignature hmac none vreq).valid = false := by
  unfold confirmPayment confirmPaymentServerJs verifySignature hmacSha256Hex
  refine ⟨?_, ?_, ?_, ?_, ?_⟩ <;> split <;> simp

/-- C10.  When Firestore is not enabled, the src/server.js confirm handler
still reports success for any request that passes validation and signature
verification, returning the freshly generated mock donationId and the
Firestore-disabled warning, while leaving the durable store completely
untouched. -/
theorem firestore_disabled_mock_success (hmac : String → String → String) (k : String)
    (t : Nat) (st : StoreSrv) (req : ConfirmReq)
    (hp : truthyS req.paymentId = true) (ho : truthyS req.orderId = true)
    (hs : truthyS req.signature = true) (ha : truthyN req.amount = true)
    (hsig : getS req.signature = hmac k (getS req.orderId ++ "|" ++ getS req.paymentId)) :
    confirmPaymentServerJs hmac (some k) false t st req =
      ({ status := 200, success := true, donationId := some ("don_mock_" ++ toString t),
         warning := some "Firestore disabled" }, st) := by
  unfold confirmPaymentServerJs hmacSha256Hex
  rw [hp, ho, hs, ha, hsig]
  simp

/-- C10 witness: the mock-success theorem applied to the concrete
well-formed request at Date.now() = 4. -/
theorem firestore_disabled_mock_success_witness :
    confirmPaymentServerJs hmacFixed (some "k") false 4 stExSrv reqOk =
      ({ status := 200, success := true, donationId := some ("don_mock_" ++ toString 4),
         warning := some "Firestore disabled" }, stExSrv) :=
  firestore_disabled_mock_success hmacFixed "k" 4 stExSrv reqOk
    (by decide) (by decide) (by decide) (by decide) (by decide)

/-- C5 (amended).  A successful confirmation with a nonnegative finite amount
does not decrease the campaign total: the stored total becomes the old total
plus that amount.  (The handler accepts any truthy amount, including negative
ones, which do decrease the total; see the counterexample.) -/
theorem confirm_total_nondecreasing_of_nonneg (hmac : String → String → String)
    (secret : Option String) (t : Nat) (st : StoreP1) (req : ConfirmReq)
    (a r : Int) (camp : CampaignDoc)
    (hfin : req.amount = some (JNum.fin a)) (hnn : 0 ≤ a)
    (hcamp : getDoc st.campaigns (getS req.campaignId) = some camp)
    (hr : readFundsRaised camp.fundsRaised = JNum.fin r)
    (hsucc : (confirmPayment hmac secret t st req).1.success = true) :
    getDoc (confirmPayment hmac secret t st req).2.campaigns (getS req.campaignId) =
      some { fundsRaised := some (JNum.fin (r + a)) } ∧ r ≤ r + a := by
  rcases confirmPayment_cases hmac secret t st req with ⟨hf, _⟩ |
    ⟨k, camp2, _, _, _, _, _, _, _, hcamp2, heq⟩
  · rw [hsucc] at hf
    cases hf
  · rw [hcamp] at hcamp2
    obtain rfl : camp = camp2 := Option.some.inj hcamp2
    have hamt : getN req.amount = JNum.fin a := by rw [hfin]; rfl
    rw [heq]
    constructor
    · show getDoc (setDoc st.campaigns (getS req.campaignId)
          { fundsRaised := some ((readFundsRaised camp.fundsRaised).add (getN req.amount)) })
          (getS req.campaignId) = some { fundsRaised := some (JNum.fin (r + a)) }
      rw [getDoc_setDoc_self, hamt, hr]
      rfl
    · omega

/-- C5 counterexample.  The confirm handler's validation only requires amount
to be truthy, so a request with amount -5 and a valid signature is accepted:
the server reports success and campaign c1's stored total decreases from 0 to
-5, refuting the claimed monotonicity over all accepted operations. -/
theorem negative_amount_decreases_total :
    let r := confirmPayment hmacFixed (some "k") 3 stEx reqNeg
    r.1.success = true ∧
    getDoc stEx.campaigns "c1" = some { fundsRaised := some (JNum.fin 0) } ∧
    getDoc r.2.campaigns "c1" = some { fundsRaised := some (JNum.fin (-5)) } := by
  decide

/-- C5 witness: the nondecrease theorem applied to the concrete amount-500
confirmation on campaign c1 starting from total 0. -/
theorem confirm_total_nondecreasing_of_nonneg_witness :
    getDoc (confirmPayment hmacFixed (some "k") 3 stEx reqOk).2.campaigns
      (getS reqOk.campaignId) = some { fundsRaised := some (JNum.fin (0 + 500)) } ∧
    (0 : Int) ≤ 0 + 500 :=
  confirm_total_nondecreasing_of_nonneg hmacFixed (some "k") 3 stEx reqOk 500 0
    { fundsRaised := some (JNum.fin 0) } (by decide) (by decide) (by decide) (by decide)
    (by decide)

/-- C7 (amended).  For the transactional variant with a configured secret:
the status is 400 exactly when one of the five fields paymentId, orderId,
signature, campaignId, amount is absent or falsy; the status is 401 exactly
when all five are truthy and the claimed signature differs from the expected
digest; and in both failure cases the store is left untouched.  (The
src/server.js variant does not require campaignId; see the counterexample.) -/
theorem confirmPayment_status_characterization (hmac : String → String → String) (k : String)
    (t : Nat) (st : StoreP1) (req : ConfirmReq) :
    ((confirmPayment hmac (some k) t st req).1.status = 400 ↔
      (truthyS req.paymentId && truthyS req.orderId && truthyS req.signature &&
        truthyS req.campaignId && truthyN req.amount) = false) ∧
    ((confirmPayment hmac (some k) t st req).1.status = 401 ↔
      ((truthyS req.paymentId && truthyS req.orderId && truthyS req.signature &&
        truthyS req.campaignId && truthyN req.amount) = true ∧
        getS req.signature ≠ hmac k (getS req.orderId ++ "|" ++ getS req.paymentId))) ∧
    ((confirmPayment hmac (some k) t st req).1.status = 400 ∨
      (confirmPayment hmac (some k) t st req).1.status = 401 →
      (confirmPayment hmac (some k) t st req).2 = st) := by
  have hb : (!truthyS req.paymentId || !truthyS req.orderId || !truthyS req.signature
      || !truthyS req.campaignId || !truthyN req.amount)
      = !(truthyS req.paymentId && truthyS req.orderId && truthyS req.signature
        && truthyS req.campaignId && truthyN req.amount) := by
    cases truthyS req.paymentId <;> cases truthyS req.orderId <;>
      cases truthyS req.signature <;> cases truthyS req.campaignId <;>
      cases truthyN req.amount <;> rfl
  unfold confirmPayment hmacSha256Hex
  rw [hb]
  by_cases hand : (truthyS req.paymentId && truthyS req.orderId && truthyS req.signature
      && truthyS req.campaignId && truthyN req.amount) = true
  · rw [hand]
    simp only [Bool.not_true, Bool.false_eq_true, if_false]
    by_cases hsig : hmac k (getS req.orderId ++ "|" ++ getS req.paymentId) ≠ getS req.signature
    · rw [if_pos hsig]
      exact ⟨by simp, ⟨fun _ => ⟨trivial, Ne.symm hsig⟩, fun _ => rfl⟩, fun _ => rfl⟩
    · rw [if_neg hsig]
      have hsEq : getS req.signature = hmac k (getS req.orderId ++ "|" ++ getS req.paymentId) :=
        (not_not.mp hsig).symm
      rcases hcampM : getDoc st.campaigns (getS req.campaignId) with _ | camp
      · simp only [hcampM]
        exact ⟨by simp, by simp [hsEq], by simp⟩
      · simp only [hcampM]
        exact ⟨by simp, by simp [hsEq], by simp⟩
  · have hand2 : (truthyS req.paymentId && truthyS req.orderId && truthyS req.signature
        && truthyS req.campaignId && truthyN req.amount) = false := by
      revert hand
      cases (truthyS req.paymentId && truthyS req.orderId && truthyS req.signature
        && truthyS req.campaignId && truthyN req.amount) <;> simp
    rw [hand2]
    simp only [Bool.not_false, if_true]
    exact ⟨by simp, by simp, fun _ => trivial⟩

/-- C7 counterexample.  In the src/server.js confirm variant, a request with
campaignId entirely absent but the other four fields present and a valid
signature is not rejected with 400: it succeeds with status 200 and persists
a Donation with a null campaignId, refuting the claimed five-field
validation for this endpoint variant. -/
theorem serverJs_confirm_missing_campaignId_succeeds :
    let r := confirmPaymentServerJs hmacFixed (some "k") true 5 stExSrv reqNoCid
    reqNoCid.campaignId = none ∧ r.1.status = 200 ∧ r.1.success = true ∧
    getDoc r.2.donations "don_5" =
      some { donationId := "don_5", campaignId := none, amount := JNum.fin 500,
             paymentId := "pay_1", orderId := "ord_1", source := "render-confirm" } := by
  decide

/-- C7 witness: the status characterization applied to a concrete request
missing its campaignId, which the transactional variant rejects with 400,
leaving the store untouched. -/
theorem confirmPayment_status_characterization_witness :
    (confirmPayment hmacFixed (some "k") 6 stEx reqNoCid).2 = stEx :=
  (confirmPayment_status_characterization hmacFixed "k" 6 stEx reqNoCid).2.2
    (Or.inl (by decide))

/-- C8 (amended).  The part_000 create-order handler rejects with 400 exactly
when the amount is falsy or compares <= 0 (this covers amount 0, -5 and NaN,
but Infinity passes), or the purpose (defaulted to donation) is not in the
allowed list, or the purpose is donation and campaignId is falsy; and a 400
status coincides exactly with no order being created (success false). -/
theorem createOrder_rejects_iff (t : Nat) (req : CreateOrderReq) :
    ((createOrder t req).status = 400 ↔
      ((!truthyN req.amount || (getN req.amount).le0) = true ∨
        ALLOWED_PURPOSES.contains (req.purpose.getD "donation") = false ∨
        ((req.purpose.getD "donation") == "donation" && !truthyS req.campaignId) = true)) ∧
    ((createOrder t req).status = 400 ↔ (createOrder t req).success = false) := by
  simp only [createOrder]
  by_cases h1 : (!truthyN req.amount || (getN req.amount).le0) = true
  · rw [if_pos h1]
    exact ⟨⟨fun _ => Or.inl h1, fun _ => rfl⟩, by simp⟩
  · rw [if_neg h1]
    by_cases h2 : ALLOWED_PURPOSES.contains (req.purpose.getD "donation") = true
    · rw [if_neg (by rw [h2]; simp)]
      by_cases h3 : ((req.purpose.getD "donation") == "donation" && !truthyS req.campaignId) = true
      · rw [if_pos h3]
        exact ⟨⟨fun _ => Or.inr (Or.inr h3), fun _ => rfl⟩, by simp⟩
      · rw [if_neg h3]
        refine ⟨⟨fun h => absurd h (by simp), fun hOr => ?_⟩, by simp⟩
        rcases hOr with h | h | h
        · exact absurd h h1
        · rw [h2] at h
          cases h
        · exact absurd h h3
    · have h2f : ALLOWED_PURPOSES.contains (req.purpose.getD "donation") = false := by
        revert h2
        cases ALLOWED_PURPOSES.contains (req.purpose.getD "donation") <;> simp
      rw [if_pos (by rw [h2f]; rfl)]
      exact ⟨⟨fun _ => Or.inr (Or.inl h2f), fun _ => rfl⟩, by simp⟩

/-- C8 counterexample.  An amount of Infinity is truthy and does not compare
<= 0, so even the part_000 handler accepts it and creates an order,
contradicting the claimed rejection of non-finite amounts; and the
src/server.js create-order variant performs no purpose validation, so a
purpose of refund is accepted there. -/
theorem createOrder_accepts_infinity_and_refund :
    (createOrder 9 orderReqInf).success = true ∧
    (createOrderServerJs 9 orderReqRefund).success = true ∧
    (createOrderServerJs 9 orderReqRefund).status = 200 := by
  decide

/-- Key step for the aggregate invariant: committing the transactional pair
of writes — insert a donation document under a fresh (campaign, donationId)
key and set that campaign's total to its read value plus the donation's
amount — preserves consistency of every campaign, provided the amount is a
finite number. -/
theorem setBoth_consistent (st : StoreP1) (cid did : String) (don : DonationDoc)
    (camp : CampaignDoc) (a : Int)
    (hamta : don.amount = JNum.fin a)
    (hcamp : getDoc st.campaigns cid = some camp)
    (hfresh : getDoc st.donations (cid, did) = none)
    (hinv : campaignsConsistent st) :
    campaignsConsistent
      { campaigns := setDoc st.campaigns cid
          { fundsRaised := some ((readFundsRaised camp.fundsRaised).add don.amount) },
        donations := setDoc st.donations (cid, did) don } := by
  have hdons := setDoc_of_getDoc_none hfresh don
  intro cid2 camp2 hget
  have hget2 : getDoc (setDoc st.campaigns cid
      { fundsRaised := some ((readFundsRaised camp.fundsRaised).add don.amount) }) cid2 =
      some camp2 := hget
  show readFundsRaised camp2.fundsRaised =
    sumAmounts (List.filter (fun e => e.1.1 == cid2) (setDoc st.donations (cid, did) don))
  rw [hdons, List.filter_append]
  by_cases hcid : cid2 = cid
  · subst hcid
    rw [getDoc_setDoc_self] at hget2
    obtain rfl :
        camp2 = CampaignDoc.mk (some ((readFundsRaised camp.fundsRaised).add don.amount)) :=
      (Option.some.inj hget2).symm
    have hnum : (readFundsRaised camp.fundsRaised).add don.amount ≠ JNum.nan := by
      rw [hamta]
      exact JNum.add_fin_ne_nan (readFundsRaised_ne_nan _) a
    show readFundsRaised (some ((readFundsRaised camp.fundsRaised).add don.amount)) = _
    rw [readFundsRaised_some_of_ne_nan hnum]
    rw [show List.filter (fun e => e.1.1 == cid2) [((cid2, did), don)] = [((cid2, did), don)] by
      simp [List.filter]]
    rw [sumAmounts_append_single]
    rw [hinv cid2 camp hcamp]
    rfl
  · rw [getDoc_setDoc_ne _ _ hcid] at hget2
    rw [show List.filter (fun e => e.1.1 == cid2) [((cid, did), don)] = [] by
      have hbeq : (cid == cid2) = false := beq_eq_false_iff_ne.mpr (Ne.symm hcid)
      simp [List.filter, hbeq]]
    rw [List.append_nil]
    exact hinv cid2 camp2 hget2

/-- C4 (amended).  A run of the transactional confirm handler preserves the
aggregate invariant — every campaign's stored total equals the sum of its
persisted donation amounts — provided the request amount is a finite number
and the generated donationId don_(Date.now()) is not already persisted for
the target campaign.  A failed run leaves the store untouched; a successful
run appends one donation of Number(amount) and increases the same campaign's
total by exactly that amount.  (A same-millisecond duplicate reuses the
donationId, overwrites the record while still incrementing the total, and
breaks the equality; see the counterexample.) -/
theorem confirmPayment_preserves_consistency (hmac : String → String → String)
    (secret : Option String) (t : Nat) (st : StoreP1) (req : ConfirmReq) (a : Int)
    (hfin : req.amount = some (JNum.fin a))
    (hfresh : getDoc st.donations (getS req.campaignId, "don_" ++ toString t) = none)
    (hinv : campaignsConsistent st) :
    campaignsConsistent (confirmPayment hmac secret t st req).2 := by
  rcases confirmPayment_cases hmac secret t st req with ⟨_, hst⟩ |
    ⟨k, camp, _, _, _, _, _, _, _, hcamp, heq⟩
  · rw [hst]
    exact hinv
  · rw [heq]
    exact setBoth_consistent st (getS req.campaignId) ("don_" ++ toString t)
      { donationId := "don_" ++ toString t, campaignId := some (getS req.campaignId),
        amount := getN req.amount, paymentId := getS req.paymentId,
        orderId := getS req.orderId, source := "render-confirm" }
      camp a (by rw [hfin]; rfl) hcamp hfresh hinv

/-- C4 counterexample.  Two confirmations of amount 500 in the same
millisecond (Date.now() = 7 twice) both increment campaign c1's total (to
1000) but the second overwrites the first Donation document, so the sum of
persisted donation amounts is 500: the resulting store violates the
aggregate equality, refuting preservation for every confirmation. -/
theorem donationId_collision_breaks_consistency :
    ¬ campaignsConsistent
        (confirmPayment hmacFixed (some "k") 7
          (confirmPayment hmacFixed (some "k") 7 stEx reqOk).2 reqOk).2 := by
  intro h
  exact absurd (h "c1" { fundsRaised := some (JNum.fin 1000) } (by decide)) (by decide)

/-- The fixture store (campaign c1 with zero total and no donations)
satisfies the aggregate invariant. -/
theorem stEx_consistent : campaignsConsistent stEx := by
  intro cid camp h
  by_cases hc : ("c1" : String) = cid
  · subst hc
    have h2 : (if ("c1" : String) = "c1" then some ({ fundsRaised := some (JNum.fin 0) } : CampaignDoc)
        else none) = some camp := h
    rw [if_pos rfl] at h2
    obtain rfl : camp = { fundsRaised := some (JNum.fin 0) } := (Option.some.inj h2).symm
    decide
  · have h2 : (if ("c1" : String) = cid then some ({ fundsRaised := some (JNum.fin 0) } : CampaignDoc)
        else none) = some camp := h
    rw [if_neg hc] at h2
    cases h2

/-- C4 witness: the preservation theorem applied to a concrete successful
confirmation of amount 500 on the consistent fixture store. -/
theorem confirmPayment_preserves_consistency_witness :
    campaignsConsistent (confirmPayment hmacFixed (some "k") 3 stEx reqOk).2 :=
  confirmPayment_preserves_consistency hmacFixed (some "k") 3 stEx reqOk 500
    (by decide) (by decide) stEx_consistent

end GiveAura
